import Mathlib

/-!
Verification of the resource-ownership and update contract of the
py-email-remainder repository: User and Remainder records, owner-scoped
Remainder CRUD, and user account lifecycle (registration, profile update,
password change, self-deletion).

The repository snapshot ships the Django test suites
(app/remainders/tests/test_remainders.py, app/users/tests/test_users_api.py)
and app/users/urls.py, but not the views/serializers/models they exercise.
Operations are therefore modelled from the specification document, with the
test files as the authority wherever they fix concrete behaviour (status
codes, field handling).  Each such definition carries a doc comment saying
what it models.
-/

namespace EmailRemainder

/-- Calendar date as used by the remainder API (year, month, day). -/
structure RDate where
  year : Nat
  month : Nat
  day : Nat
deriving DecidableEq, Repr

/-- Modelled from the spec: a User record of the Identity Store (section 3).
Attributes: unique identifier, email, optional display name, stored
credential.  Password hashing is out of the spec's scope (treated as an
external primitive), so the credential is carried verbatim and
`check_password` becomes string equality. -/
structure User where
  id : Nat
  email : String
  name : String
  password : String
deriving DecidableEq, Repr

/-- Modelled from the spec: a Remainder record of the Remainder Store
(section 3): unique identifier, owning user reference, title, optional
description, remainder_date, permanent flag. -/
structure Remainder where
  id : Nat
  userId : Nat
  title : String
  description : String
  remainder_date : RDate
  permanent : Bool
deriving DecidableEq, Repr

/-- The persistent record set behind both stores, with the id counters the
relational store would provide. -/
structure Store where
  users : List User
  remainders : List Remainder
  nextUserId : Nat
  nextRemainderId : Nat
deriving DecidableEq, Repr

/-- Error taxonomy of spec section 7. -/
inductive ApiError where
  | validationError
  | authError
  | notFound
  | methodNotAllowed
deriving DecidableEq, Repr

/-- HTTP status of each error class (spec section 7 taxonomy). -/
def ApiError.status : ApiError → Nat
  | .validationError => 400
  | .authError => 401
  | .notFound => 404
  | .methodNotAllowed => 405

/-- Status code of a user-facing result whose success code is 204. -/
def deleteStatus (r : Except ApiError Unit) : Nat :=
  match r with
  | .ok _ => 204
  | .error e => e.status

/-- Modelled from the spec: password strength policy (section 4.1: minimum
length, must mix letter case and digits).  The spec gives no numeric
minimum; the repository's accepted passwords are all at least 8 characters,
so the minimum length is taken as 8. -/
def validPassword (p : String) : Bool :=
  decide (8 ≤ p.length) && p.toList.any Char.isUpper
    && p.toList.any Char.isLower && p.toList.any Char.isDigit

/-- Response shaping of a User record: field list of a response payload.
Modelled from the spec: the credential is never included (section 3
invariants, section 4.1). -/
def serializeUser (u : User) : List (String × String) :=
  [("email", u.email), ("name", u.name)]

/-- Keys present in a user-facing response payload (empty on error). -/
def responseKeys (r : Except ApiError (List (String × String))) : List String :=
  match r with
  | .ok resp => resp.map Prod.fst
  | .error _ => []

def emailTaken (s : Store) (e : String) : Bool :=
  s.users.any (fun u => u.email == e)

def findUser (s : Store) (uid : Nat) : Option User :=
  s.users.find? (fun u => u.id == uid)

/-- Registration payload (test_users_api.py test_create_user_success). -/
structure RegisterPayload where
  email : String
  password : String
  password_confirm : String
  name : String
deriving DecidableEq, Repr

/-- Modelled from the spec: Register (section 4.1).  Fails with
ValidationError if the email is already registered, if the password fails
the strength policy, or if password and confirmation differ; on success the
created User is stored and returned with the credential never included. -/
def register (p : RegisterPayload) (s : Store) :
    Store × Except ApiError (List (String × String)) :=
  if emailTaken s p.email then (s, .error .validationError)
  else if ¬ validPassword p.password then (s, .error .validationError)
  else if p.password ≠ p.password_confirm then (s, .error .validationError)
  else
    let u : User :=
      { id := s.nextUserId, email := p.email, name := p.name, password := p.password }
    ({ s with users := s.users ++ [u], nextUserId := s.nextUserId + 1 },
      .ok (serializeUser u))

/-- Modelled from the spec: GetSelf (section 4.1) returns the caller's own
record, shaped by the serializer. -/
def getSelf (caller : Nat) (s : Store) : Except ApiError (List (String × String)) :=
  match findUser s caller with
  | some u => .ok (serializeUser u)
  | none => .error .authError

/-- Profile-update payload; the email field stands for any non-whitelisted
field supplied by the caller. -/
structure UpdateMePayload where
  name : Option String
  email : Option String
deriving DecidableEq, Repr

/-- Modelled from the spec: UpdateSelf (section 4.1) whitelist update; only
the name is applied, any other field in the payload is silently ignored. -/
def updateSelf (caller : Nat) (p : UpdateMePayload) (s : Store) :
    Store × Except ApiError (List (String × String)) :=
  match findUser s caller with
  | none => (s, .error .authError)
  | some u =>
    let u2 : User := { u with name := p.name.getD u.name }
    ({ s with users := s.users.map (fun v => if v.id == caller then u2 else v) },
      .ok (serializeUser u2))

/-- Password-change payload (test_users_api.py test_change_password). -/
structure ChangePasswordPayload where
  password : String
  password_confirm : String
deriving DecidableEq, Repr

/-- Modelled from the spec: ChangePassword (section 4.1).  Fails if the new
password and confirmation differ or the strength policy fails; never
returns the credential. -/
def changePassword (caller : Nat) (p : ChangePasswordPayload) (s : Store) :
    Store × Except ApiError (List (String × String)) :=
  match findUser s caller with
  | none => (s, .error .authError)
  | some u =>
    if ¬ validPassword p.password then (s, .error .validationError)
    else if p.password ≠ p.password_confirm then (s, .error .validationError)
    else
      let u2 : User := { u with password := p.password }
      ({ s with users := s.users.map (fun v => if v.id == caller then u2 else v) },
        .ok (serializeUser u2))

/-- Modelled from the spec: DeleteSelf (section 4.1) — fails with
ValidationError when the supplied password is empty; on a match it deletes
the caller's User record and cascades deletion of the caller's Remainders.
The spec's taxonomy assigns AuthError (401) to a wrong non-empty password,
but the repository's test test_delete_me_wrong_password asserts status 400
for that case, so a wrong non-empty password is modelled as
ValidationError (400), following the test. -/
def deleteSelf (caller : Nat) (password : String) (s : Store) :
    Store × Except ApiError Unit :=
  match findUser s caller with
  | none => (s, .error .authError)
  | some u =>
    if password = "" then (s, .error .validationError)
    else if password ≠ u.password then (s, .error .validationError)
    else
      ({ s with users := s.users.filter (fun v => v.id != caller),
                remainders := s.remainders.filter (fun r => r.userId != caller) },
        .ok ())

/-- Modelled from the spec: List (section 4.2) — the owner-scoped queryset:
only Remainders owned by the caller (test_remainders_limited_to_a_user). -/
def listRemainders (caller : Nat) (s : Store) : List Remainder :=
  s.remainders.filter (fun r => r.userId == caller)

/-- Owner-scoped lookup by identifier: searches only the caller's own
records, so a foreign or missing id is indistinguishable (spec glossary
"Owner-scoped lookup"). -/
def findOwned (caller : Nat) (rid : Nat) (s : Store) : Option Remainder :=
  (listRemainders caller s).find? (fun r => r.id == rid)

/-- Modelled from the spec: Get (section 4.2) — NotFound both when the id
does not exist and when the record is owned by a different user. -/
def getRemainder (caller : Nat) (rid : Nat) (s : Store) : Except ApiError Remainder :=
  match findOwned caller rid s with
  | some r => .ok r
  | none => .error .notFound

/-- Create payload; the user field stands for an explicit owner supplied in
the payload (test_create_remainder, test_cannot_update_user_of_remainder). -/
structure RemainderCreatePayload where
  title : String
  description : Option String
  remainder_date : RDate
  permanent : Option Bool
  user : Option Nat
deriving DecidableEq, Repr

/-- Modelled from the spec: Create (section 4.2) — the owner is forced to
the caller regardless of any owner field supplied in the payload; omitted
optional fields take their type defaults. -/
def createRemainder (caller : Nat) (p : RemainderCreatePayload) (s : Store) :
    Store × Remainder :=
  let r : Remainder :=
    { id := s.nextRemainderId, userId := caller, title := p.title,
      description := p.description.getD "", remainder_date := p.remainder_date,
      permanent := p.permanent.getD false }
  ({ s with remainders := s.remainders ++ [r],
            nextRemainderId := s.nextRemainderId + 1 }, r)

/-- Patch payload: every field optional; the user field is present only to
be ignored (test_cannot_update_user_of_remainder). -/
structure RemainderPatchPayload where
  title : Option String
  description : Option String
  remainder_date : Option RDate
  permanent : Option Bool
  user : Option Nat
deriving DecidableEq, Repr

/-- Merge of a patch payload into an existing record: only supplied fields
change; owner and identifier are untouched. -/
def applyPatch (r : Remainder) (p : RemainderPatchPayload) : Remainder :=
  { r with title := p.title.getD r.title,
           description := p.description.getD r.description,
           remainder_date := p.remainder_date.getD r.remainder_date,
           permanent := p.permanent.getD r.permanent }

/-- Modelled from the spec: PartialUpdate (section 4.2) — owner-scoped
lookup, then merge of only the supplied fields; any user/owner field in the
payload is ignored; NotFound when the id is missing or foreign. -/
def patchRemainder (caller : Nat) (rid : Nat) (p : RemainderPatchPayload) (s : Store) :
    Store × Except ApiError Remainder :=
  match findOwned caller rid s with
  | none => (s, .error .notFound)
  | some r =>
    let r2 := applyPatch r p
    ({ s with remainders := s.remainders.map (fun x => if x.id == rid then r2 else x) },
      .ok r2)

/-- Put payload: title and remainder_date required, the rest optional;
omitted optional fields reset to type defaults. -/
structure RemainderPutPayload where
  title : String
  description : Option String
  remainder_date : RDate
  permanent : Option Bool
  user : Option Nat
deriving DecidableEq, Repr

/-- Replacement of all mutable fields: absent optional fields reset to
their type defaults (description to "", permanent to false); owner and
identifier are untouched. -/
def applyPut (r : Remainder) (p : RemainderPutPayload) : Remainder :=
  { r with title := p.title,
           description := p.description.getD "",
           remainder_date := p.remainder_date,
           permanent := p.permanent.getD false }

/-- Modelled from the spec: FullUpdate (section 4.2) — owner-scoped lookup,
then replacement of all mutable fields with omitted fields reset to type
defaults; NotFound when the id is missing or foreign. -/
def putRemainder (caller : Nat) (rid : Nat) (p : RemainderPutPayload) (s : Store) :
    Store × Except ApiError Remainder :=
  match findOwned caller rid s with
  | none => (s, .error .notFound)
  | some r =>
    let r2 := applyPut r p
    ({ s with remainders := s.remainders.map (fun x => if x.id == rid then r2 else x) },
      .ok r2)

/-- Modelled from the spec: Delete (section 4.2) — owner-scoped lookup;
NotFound (not Forbidden) when the id belongs to another user
(test_deleting_someones_remainder_not_possible). -/
def deleteRemainder (caller : Nat) (rid : Nat) (s : Store) :
    Store × Except ApiError Unit :=
  match findOwned caller rid s with
  | none => (s, .error .notFound)
  | some _ =>
    ({ s with remainders := s.remainders.filter (fun x => x.id != rid) }, .ok ())

end EmailRemainder

namespace EmailRemainder

deriving instance DecidableEq for Except

/-- Concrete stores and payloads used to instantiate the theorems below,
mirroring the fixtures of the test suites. -/
def emptyStore : Store :=
  { users := [], remainders := [], nextUserId := 1, nextRemainderId := 1 }

def c6Payload (pw : String) : RegisterPayload :=
  { email := "test@example.com", password := pw, password_confirm := pw,
    name := "Test User" }

def c1Rem : Remainder :=
  { id := 10, userId := 1, title := "Test Remainder",
    description := "Test description.",
    remainder_date := { year := 2026, month := 2, day := 27 }, permanent := true }

def c1Store : Store :=
  { users := [{ id := 1, email := "other_user@example.com", name := "",
                password := "Password1234" },
              { id := 2, email := "test@example.com", name := "",
                password := "Test1234" }],
    remainders := [c1Rem], nextUserId := 3, nextRemainderId := 11 }

def emptyPatch : RemainderPatchPayload :=
  { title := none, description := none, remainder_date := none,
    permanent := none, user := none }

def userPatch : RemainderPatchPayload :=
  { title := none, description := none, remainder_date := none,
    permanent := none, user := some 2 }

def c1Put : RemainderPutPayload :=
  { title := "Updated Title", description := none,
    remainder_date := { year := 2026, month := 1, day := 1 },
    permanent := none, user := none }

/-- An owner-scoped lookup for a record owned by someone else finds
nothing, provided record identifiers are unique (the store's primary-key
invariant). -/
theorem findOwned_eq_none_of_foreign (s : Store) (r : Remainder) (B : Nat)
    (hwf : (s.remainders.map (fun x => x.id)).Nodup)
    (hr : r ∈ s.remainders) (hB : r.userId ≠ B) :
    findOwned B r.id s = none := by
  unfold findOwned listRemainders
  rw [List.find?_eq_none]
  intro x hx hbeq
  rw [List.mem_filter] at hx
  obtain ⟨hxs, hxu⟩ := hx
  have hid : x.id = r.id := by simpa using hbeq
  have hxr : x = r := List.inj_on_of_nodup_map hwf hxs hr hid
  subst hxr
  exact hB (by simpa using hxu)

/-- C1: for every Remainder r owned by user A and every authenticated user
B distinct from A, a get, patch, put, or delete request by B for r's
identifier returns NotFound (status 404, never Forbidden/403), so
owner-scoped lookups do not disclose that the record exists. -/
theorem c1_cross_user_requests_not_found (s : Store) (r : Remainder) (A B : Nat)
    (hwf : (s.remainders.map (fun x => x.id)).Nodup)
    (hr : r ∈ s.remainders) (hA : r.userId = A) (hBA : B ≠ A)
    (p : RemainderPatchPayload) (q : RemainderPutPayload) :
    getRemainder B r.id s = .error .notFound ∧
    (patchRemainder B r.id p s).2 = .error .notFound ∧
    (putRemainder B r.id q s).2 = .error .notFound ∧
    (deleteRemainder B r.id s).2 = .error .notFound ∧
    ApiError.notFound.status = 404 ∧ ApiError.notFound.status ≠ 403 := by
  have hnone : findOwned B r.id s = none := by
    refine findOwned_eq_none_of_foreign s r B hwf hr ?_
    rw [hA]
    exact fun h => hBA h.symm
  refine ⟨?_, ?_, ?_, ?_, rfl, by decide⟩
  · simp [getRemainder, hnone]
  · simp [patchRemainder, hnone]
  · simp [putRemainder, hnone]
  · simp [deleteRemainder, hnone]

theorem c1_witness :
    getRemainder 2 c1Rem.id c1Store = .error .notFound ∧
    (patchRemainder 2 c1Rem.id emptyPatch c1Store).2 = .error .notFound ∧
    (putRemainder 2 c1Rem.id c1Put c1Store).2 = .error .notFound ∧
    (deleteRemainder 2 c1Rem.id c1Store).2 = .error .notFound ∧
    ApiError.notFound.status = 404 ∧ ApiError.notFound.status ≠ 403 :=
  c1_cross_user_requests_not_found c1Store c1Rem 1 2 (by decide) (by decide)
    rfl (by decide) emptyPatch c1Put

/-- C2: listing as caller A returns exactly the Remainders owned by A —
membership in the listing is equivalent to being a stored record owned by
A, so no record of a different owner ever appears. -/
theorem c2_list_exactly_owned (s : Store) (A : Nat) (r : Remainder) :
    r ∈ listRemainders A s ↔ r ∈ s.remainders ∧ r.userId = A := by
  simp [listRemainders, List.mem_filter]

theorem c2_witness :
    c1Rem ∈ listRemainders 1 c1Store ↔
      c1Rem ∈ c1Store.remainders ∧ c1Rem.userId = 1 :=
  c2_list_exactly_owned c1Store 1 c1Rem

/-- C3: Create always produces a Remainder owned by the caller — the new
record is appended with owner equal to the caller, and any explicit owner
value in the payload that differs from the caller is never the resulting
owner. -/
theorem c3_create_owner_is_caller (caller : Nat) (p : RemainderCreatePayload)
    (s : Store) :
    (createRemainder caller p s).2.userId = caller ∧
    (createRemainder caller p s).1.remainders
      = s.remainders ++ [(createRemainder caller p s).2] ∧
    (∀ v, p.user = some v → v ≠ caller →
      (createRemainder caller p s).2.userId ≠ v) := by
  refine ⟨rfl, rfl, ?_⟩
  intro v _ hv
  simpa [createRemainder] using fun h => hv h.symm

theorem c3_witness :
    (createRemainder 1
        { title := "Agatka Birthday",
          description := some "Agatka birthday yearly remainder.",
          remainder_date := { year := 2026, month := 2, day := 27 },
          permanent := some true, user := some 2 } emptyStore).2.userId = 1 ∧
    (createRemainder 1
        { title := "Agatka Birthday",
          description := some "Agatka birthday yearly remainder.",
          remainder_date := { year := 2026, month := 2, day := 27 },
          permanent := some true, user := some 2 } emptyStore).1.remainders
      = emptyStore.remainders ++ [(createRemainder 1
        { title := "Agatka Birthday",
          description := some "Agatka birthday yearly remainder.",
          remainder_date := { year := 2026, month := 2, day := 27 },
          permanent := some true, user := some 2 } emptyStore).2] ∧
    (∀ v, (some 2 : Option Nat) = some v → v ≠ 1 →
      (createRemainder 1
        { title := "Agatka Birthday",
          description := some "Agatka birthday yearly remainder.",
          remainder_date := { year := 2026, month := 2, day := 27 },
          permanent := some true, user := some 2 } emptyStore).2.userId ≠ v) :=
  c3_create_owner_is_caller 1
    { title := "Agatka Birthday",
      description := some "Agatka birthday yearly remainder.",
      remainder_date := { year := 2026, month := 2, day := 27 },
      permanent := some true, user := some 2 } emptyStore

end EmailRemainder

namespace EmailRemainder

/-- C4: a partial update whose payload carries only remainder_date changes
only that field — the result is the prior record with remainder_date
replaced — and any payload's partial update (in particular one carrying a
user/owner field) leaves the owner unchanged. -/
theorem c4_patch_date_only_frame (caller rid : Nat) (s : Store) (r : Remainder)
    (D : RDate) (h : findOwned caller rid s = some r)
    (p : RemainderPatchPayload) :
    ((patchRemainder caller rid
        { title := none, description := none, remainder_date := some D,
          permanent := none, user := none } s).2
      = .ok { r with remainder_date := D }) ∧
    (∀ r3, (patchRemainder caller rid p s).2 = .ok r3 → r3.userId = r.userId) := by
  constructor
  · simp [patchRemainder, h, applyPatch]
  · intro r3 h3
    simp only [patchRemainder, h, Except.ok.injEq] at h3
    subst h3
    simp [applyPatch]

theorem c4_witness :
    ((patchRemainder 1 10
        { title := none, description := none,
          remainder_date := some { year := 2027, month := 2, day := 28 },
          permanent := none, user := none } c1Store).2
      = .ok { c1Rem with remainder_date := { year := 2027, month := 2, day := 28 } }) ∧
    (∀ r3, (patchRemainder 1 10 userPatch c1Store).2 = .ok r3 →
      r3.userId = c1Rem.userId) :=
  c4_patch_date_only_frame 1 10 c1Store c1Rem
    { year := 2027, month := 2, day := 28 } (by decide) userPatch

/-- C5: a full update whose payload omits permanent succeeds on a record
the caller owns and leaves permanent false regardless of its prior value,
while the supplied fields take the payload values and the owner remains the
caller. -/
theorem c5_put_omitting_permanent (caller rid : Nat) (s : Store) (r : Remainder)
    (h : findOwned caller rid s = some r)
    (t : String) (d : RDate) (descr : Option String) :
    ∃ r2, (putRemainder caller rid
        { title := t, description := descr, remainder_date := d,
          permanent := none, user := none } s).2 = .ok r2 ∧
      r2.permanent = false ∧ r2.title = t ∧ r2.remainder_date = d ∧
      r2.description = descr.getD "" ∧ r2.userId = caller := by
  have hmem : r ∈ listRemainders caller s := by
    have h' : (listRemainders caller s).find? (fun x => x.id == rid) = some r := h
    exact List.mem_of_find?_eq_some h'
  have hru : r.userId = caller := by
    rw [listRemainders, List.mem_filter] at hmem
    simpa using hmem.2
  refine ⟨applyPut r ⟨t, descr, d, none, none⟩, ?_, ?_, rfl, rfl, ?_, ?_⟩
  · simp [putRemainder, h]
  · simp [applyPut]
  · simp [applyPut]
  · simp [applyPut, hru]

theorem c5_witness :
    ∃ r2, (putRemainder 1 10
        { title := "Updated Title", description := some "Updated Description",
          remainder_date := { year := 2027, month := 1, day := 1 },
          permanent := none, user := none } c1Store).2 = .ok r2 ∧
      r2.permanent = false ∧ r2.title = "Updated Title" ∧
      r2.remainder_date = { year := 2027, month := 1, day := 1 } ∧
      r2.description = (some "Updated Description").getD "" ∧ r2.userId = 1 :=
  c5_put_omitting_permanent 1 10 c1Store c1Rem (by decide)
    "Updated Title" { year := 2027, month := 1, day := 1 }
    (some "Updated Description")

/-- C6: registration rejects the passwords "testtest", "Testtest" and
"test1234" with ValidationError, leaving the store unchanged, and accepts
"Test1234", creating the user. -/
theorem c6_password_policy_cases :
    (register (c6Payload "testtest") emptyStore).2 = .error .validationError ∧
    (register (c6Payload "Testtest") emptyStore).2 = .error .validationError ∧
    (register (c6Payload "test1234") emptyStore).2 = .error .validationError ∧
    (register (c6Payload "testtest") emptyStore).1 = emptyStore ∧
    (register (c6Payload "Testtest") emptyStore).1 = emptyStore ∧
    (register (c6Payload "test1234") emptyStore).1 = emptyStore ∧
    (register (c6Payload "Test1234") emptyStore).2
      = .ok [("email", "test@example.com"), ("name", "Test User")] ∧
    (register (c6Payload "Test1234") emptyStore).1.users
      = [{ id := 1, email := "test@example.com", name := "Test User",
           password := "Test1234" }] := by
  decide

end EmailRemainder

namespace EmailRemainder

def c7Store : Store :=
  { users := [{ id := 1, email := "new_test_user@example.com", name := "",
                password := "GoodPassword1234" }],
    remainders := [], nextUserId := 2, nextRemainderId := 1 }

/-- C7 counterexample: with the stored password "GoodPassword1234", a
self-delete supplying the wrong non-empty password "WrongPassword1234"
does not fail with AuthError (401) as the claim states: it fails with
ValidationError, whose status is 400 — matching the repository's test
test_delete_me_wrong_password, which asserts status 400. -/
theorem c7_counterexample :
    (deleteSelf 1 "WrongPassword1234" c7Store).2 ≠ .error .authError ∧
    (deleteSelf 1 "WrongPassword1234" c7Store).2 = .error .validationError ∧
    ApiError.validationError.status = 400 ∧ ApiError.authError.status = 401 := by
  decide

/-- C7 (amended): self-delete with an empty password fails with
ValidationError and leaves the store intact, and self-delete with a wrong
non-empty password also fails with ValidationError (status 400, not
AuthError/401) and leaves the store intact. -/
theorem c7_delete_self_bad_password (s : Store) (caller : Nat) (u : User)
    (wrong : String) (hu : findUser s caller = some u)
    (hw : wrong ≠ "") (hne : wrong ≠ u.password) :
    (deleteSelf caller "" s).2 = .error .validationError ∧
    (deleteSelf caller "" s).1 = s ∧
    (deleteSelf caller wrong s).2 = .error .validationError ∧
    (deleteSelf caller wrong s).1 = s ∧
    ApiError.validationError.status = 400 := by
  refine ⟨?_, ?_, ?_, ?_, rfl⟩ <;> simp [deleteSelf, hu, hw, hne]

theorem c7_witness :
    (deleteSelf 1 "" c7Store).2 = .error .validationError ∧
    (deleteSelf 1 "" c7Store).1 = c7Store ∧
    (deleteSelf 1 "WrongPassword1234" c7Store).2 = .error .validationError ∧
    (deleteSelf 1 "WrongPassword1234" c7Store).1 = c7Store ∧
    ApiError.validationError.status = 400 :=
  c7_delete_self_bad_password c7Store 1
    { id := 1, email := "new_test_user@example.com", name := "",
      password := "GoodPassword1234" }
    "WrongPassword1234" rfl (by decide) (by decide)

/-- C8: self-delete with the caller's correct (non-empty) password succeeds
with status 204, removes the caller's User record, deletes every Remainder
owned by the caller, and keeps every Remainder owned by anyone else. -/
theorem c8_delete_self_cascades (s : Store) (caller : Nat) (u : User)
    (hu : findUser s caller = some u) (hpw : u.password ≠ "") :
    (deleteSelf caller u.password s).2 = .ok () ∧
    deleteStatus (deleteSelf caller u.password s).2 = 204 ∧
    (∀ v ∈ (deleteSelf caller u.password s).1.users, v.id ≠ caller) ∧
    (∀ r ∈ (deleteSelf caller u.password s).1.remainders, r.userId ≠ caller) ∧
    (∀ r ∈ s.remainders, r.userId ≠ caller →
      r ∈ (deleteSelf caller u.password s).1.remainders) := by
  refine ⟨?_, ?_, ?_, ?_, ?_⟩ <;>
    simp [deleteSelf, hu, hpw, deleteStatus, List.mem_filter]
  exact fun r hr hne => ⟨hr, hne⟩

def c8Store : Store :=
  { users := [{ id := 1, email := "test@example.com", name := "Test Name",
                password := "Test1234" },
              { id := 2, email := "new_test_user@example.com", name := "",
                password := "Password1234" }],
    remainders := [{ id := 1, userId := 1, title := "Test Remainder",
                     description := "Test description.",
                     remainder_date := { year := 2026, month := 2, day := 27 },
                     permanent := true },
                   { id := 2, userId := 2, title := "Test Remainder",
                     description := "Test description.",
                     remainder_date := { year := 2026, month := 2, day := 27 },
                     permanent := false }],
    nextUserId := 3, nextRemainderId := 3 }

theorem c8_witness :
    (deleteSelf 2 "Password1234" c8Store).2 = .ok () ∧
    deleteStatus (deleteSelf 2 "Password1234" c8Store).2 = 204 ∧
    (∀ v ∈ (deleteSelf 2 "Password1234" c8Store).1.users, v.id ≠ 2) ∧
    (∀ r ∈ (deleteSelf 2 "Password1234" c8Store).1.remainders, r.userId ≠ 2) ∧
    (∀ r ∈ c8Store.remainders, r.userId ≠ 2 →
      r ∈ (deleteSelf 2 "Password1234" c8Store).1.remainders) :=
  c8_delete_self_cascades c8Store 2
    { id := 2, email := "new_test_user@example.com", name := "",
      password := "Password1234" }
    rfl (by decide)

end EmailRemainder

namespace EmailRemainder

/-- A user-facing response carries neither a password key nor a
password-confirmation key. -/
def passwordFree (r : Except ApiError (List (String × String))) : Prop :=
  "password" ∉ responseKeys r ∧ "password_confirm" ∉ responseKeys r

theorem passwordFree_error (e : ApiError) :
    passwordFree (Except.error e) := by
  simp [passwordFree, responseKeys]

theorem passwordFree_serializeUser (u : User) :
    passwordFree (Except.ok (serializeUser u)) := by
  simp [passwordFree, responseKeys, serializeUser]

/-- C9: no operation of the User resource — registration, profile
retrieval, profile update, or password change — ever carries the password
or the password confirmation in its response payload. -/
theorem c9_no_password_in_user_responses (s : Store) (caller : Nat)
    (rp : RegisterPayload) (up : UpdateMePayload) (cp : ChangePasswordPayload) :
    passwordFree (register rp s).2 ∧ passwordFree (getSelf caller s) ∧
    passwordFree (updateSelf caller up s).2 ∧
    passwordFree (changePassword caller cp s).2 := by
  refine ⟨?_, ?_, ?_, ?_⟩
  · unfold register
    split
    · exact passwordFree_error _
    split
    · exact passwordFree_error _
    split
    · exact passwordFree_error _
    · exact passwordFree_serializeUser _
  · unfold getSelf
    split
    · exact passwordFree_serializeUser _
    · exact passwordFree_error _
  · unfold updateSelf
    split
    · exact passwordFree_error _
    · exact passwordFree_serializeUser _
  · unfold changePassword
    split
    · exact passwordFree_error _
    split
    · exact passwordFree_error _
    split
    · exact passwordFree_error _
    · exact passwordFree_serializeUser _

/-- C10: a rejected registration is atomic — whenever Register returns an
error (taken email, weak password, or mismatched confirmation), the store,
in particular its set of users, is unchanged. -/
theorem c10_register_failure_atomic (p : RegisterPayload) (s : Store)
    (e : ApiError) (h : (register p s).2 = .error e) :
    (register p s).1 = s ∧ (register p s).1.users = s.users := by
  by_cases h1 : emailTaken s p.email
  · simp [register, h1]
  · by_cases h2 : validPassword p.password
    · by_cases h3 : p.password = p.password_confirm
      · exfalso
        have h2' : validPassword p.password_confirm = true := h3 ▸ h2
        simp [register, h1, h2, h2', h3] at h
      · simp [register, h1, h2, h3]
    · simp [register, h1, h2]

theorem c10_witness :
    (register (c6Payload "testtest") emptyStore).1 = emptyStore ∧
    (register (c6Payload "testtest") emptyStore).1.users = emptyStore.users :=
  c10_register_failure_atomic (c6Payload "testtest") emptyStore
    .validationError (by decide)

end EmailRemainder
